import Mathlib

/-!
Verification of the rainfall PDF ingestion microservice (src/main.py).

The service exposes two endpoints, POST /process-pdf (multipart upload)
and POST /process-pdf-base64 (JSON with a base64 payload).  Both stage the
document bytes in a temporary file, run the external parser on it, stamp
every extracted record with the caller-supplied date, and bulk-insert the
batch into MongoDB.  This file is a shallow embedding of that pipeline:

* external collaborators (the `FixedRainfallParser`, the base64 decoder,
  the MongoDB ping and insert) are oracles carried in an `Env` record,
  so one `Env` fixes one deterministic run of a request;
* the observable side effects of a request (temporary artifacts created
  and still present, connections opened and closed, documents gained by
  the store) are threaded through an `Effects` record;
* each endpoint is a pure function `Env -> Request -> Outcome x Effects`
  mirroring the Python control flow line by line, including the fact that
  the `except Exception` block around the MongoDB section also catches
  the HTTPException raised for a missing MONGODB_URI and re-wraps its
  message, and the fact that `client.close()` is only reached when ping
  and insert both succeed.
-/

namespace Rainfall

/-- One extracted row: an ordered column-to-value mapping, as produced by
`df.to_dict` on one dataframe row (pandas keeps columns ordered and
unique). -/
abbrev Fields := List (String × String)

abbrev ParsedRecord := Fields

abbrev StampedRecord := Fields

/-- First value bound to a column name, none when the column is absent. -/
def lookupField : Fields → String → Option String
  | [], _ => none
  | (k2, v) :: rest, k => if k2 = k then some v else lookupField rest k

/-- Whether a row has a column of the given name. -/
def hasField : Fields → String → Bool
  | [], _ => false
  | (k2, _) :: rest, k => if k2 = k then true else hasField rest k

/-- Replace the value of every column named `k` by `v`, keeping positions
(column names are unique in a dataframe, so at most one is replaced). -/
def overwriteField : Fields → String → String → Fields
  | [], _, _ => []
  | (k2, v2) :: rest, k, v =>
    if k2 = k then (k, v) :: overwriteField rest k v
    else (k2, v2) :: overwriteField rest k v

/-- `df[k] = v` seen on one row: overwrite the column in place when it
exists, otherwise append it as the last column (pandas semantics of
assigning a scalar to a column). -/
def setField (f : Fields) (k v : String) : Fields :=
  if hasField f k then overwriteField f k v
  else f ++ [(k, v)]

/-- Lines 114-118 of src/main.py: `df[date] = date; df.to_dict(records)`
— stamp every parsed record with the request date, verbatim. -/
def stampRecords (rs : List ParsedRecord) (date : String) : List StampedRecord :=
  rs.map (fun r => setField r "date" date)

theorem lookupField_overwrite (f : Fields) (k v : String) :
    lookupField (overwriteField f k v) k
      = if hasField f k then some v else none := by
  induction f with
  | nil => simp [lookupField, overwriteField, hasField]
  | cons p rest ih =>
    obtain ⟨a, b⟩ := p
    by_cases h : a = k
    · simp [lookupField, overwriteField, hasField, h]
    · have hd : decide (a = k) = false := by simp [h]
      simp [lookupField, overwriteField, hasField, h, hd, ih]

theorem lookupField_overwrite_ne (f : Fields) (k v k2 : String) (h : k2 ≠ k) :
    lookupField (overwriteField f k v) k2 = lookupField f k2 := by
  induction f with
  | nil => simp [lookupField, overwriteField]
  | cons p rest ih =>
    obtain ⟨a, b⟩ := p
    by_cases ha : a = k
    · have hk2 : ¬k = k2 := fun hk => h hk.symm
      have ha2 : ¬a = k2 := by rw [ha]; exact hk2
      simp [lookupField, overwriteField, ha, hk2, ha2, ih]
    · by_cases ha2 : a = k2
      · have hk : ¬k2 = k := ha2 ▸ ha
        simp [lookupField, overwriteField, ha, ha2, hk]
      · simp [lookupField, overwriteField, ha, ha2, ih]

theorem lookupField_append_absent (f : Fields) (k v : String)
    (h : hasField f k = false) :
    lookupField (f ++ [(k, v)]) k = some v := by
  induction f with
  | nil => simp [lookupField]
  | cons p rest ih =>
    obtain ⟨a, b⟩ := p
    simp [hasField] at h
    simp [lookupField, h.1, ih h.2]

theorem lookupField_append_ne (f : Fields) (k v k2 : String) (h : k2 ≠ k) :
    lookupField (f ++ [(k, v)]) k2 = lookupField f k2 := by
  induction f with
  | nil =>
    have hk2 : ¬k = k2 := fun hk => h hk.symm
    simp [lookupField, hk2]
  | cons p rest ih =>
    obtain ⟨a, b⟩ := p
    by_cases ha : a = k2
    · simp [lookupField, ha]
    · simp [lookupField, ha, ih]

theorem lookupField_setField_self (f : Fields) (k v : String) :
    lookupField (setField f k v) k = some v := by
  unfold setField
  by_cases h : hasField f k
  · simp [h, lookupField_overwrite]
  · simp only [Bool.not_eq_true] at h
    simp [h, lookupField_append_absent f k v h]

theorem lookupField_setField_ne (f : Fields) (k v k2 : String) (h : k2 ≠ k) :
    lookupField (setField f k v) k2 = lookupField f k2 := by
  unfold setField
  by_cases hf : hasField f k
  · simp [hf, lookupField_overwrite_ne f k v k2 h]
  · simp [hf, lookupField_append_ne f k v k2 h]

/-- The response model (class PDFProcessResponse, src/main.py lines 38-42).
`processing_time_ms` is an Int because Python computes it as an int. -/
structure PDFProcessResponse where
  success : Bool
  records_count : Nat
  message : String
  processing_time_ms : Int
deriving Repr, DecidableEq

/-- What one request returns over HTTP: a 200 with a response body, or an
HTTPException with a status code and a detail message. -/
inductive Outcome where
  | ok (resp : PDFProcessResponse)
  | httpError (status : Nat) (detail : String)
deriving Repr, DecidableEq

/-- What can escape the staged block (src/main.py lines 106-159) before the
boundary handlers at lines 168-172 classify it: a successful response, an
HTTPException, or any other exception carrying its message. -/
inductive Raw where
  | ok (resp : PDFProcessResponse)
  | httpExc (status : Nat) (detail : String)
  | exc (msg : String)
deriving Repr, DecidableEq

/-- The observable side effects of one request.  Temporary artifacts carry
an id and their bytes; `fsTemp` is what is still present in storage,
`tempCreated` every id ever created.  `store` is the documents the MongoDB
collection gained during the request. -/
structure Effects where
  tempCreated : List Nat
  fsTemp : List (Nat × List Nat)
  connsOpened : Nat
  connsClosed : Nat
  store : List StampedRecord
deriving Repr, DecidableEq

def Effects.init : Effects :=
  { tempCreated := [], fsTemp := [], connsOpened := 0, connsClosed := 0,
    store := [] }

/-- `os.unlink` on the staged artifact: removes it from storage.  In this
single-request model the artifact was just created by the same request, so
deletion succeeds; the try/except swallowing an OS-level deletion failure
(src/main.py lines 163-166) guards against interference outside the
model. -/
def unlinkTemp (p : Nat) (e : Effects) : Effects :=
  { e with fsTemp := e.fsTemp.filter (fun q => q.1 ≠ p) }

/-- One deterministic run of the external collaborators: the configuration
lookup, the parser (a function of the staged bytes), the base64 decoder,
the MongoDB ping and insert outcomes, and the measured elapsed time.
`insertError = some (k, m)` means `insert_many` raises with message `m`
after the first `k` documents of the batch were written (pymongo inserts
an ordered batch document by document and raises at the first failure);
`none` means the whole batch is written. -/
structure Env where
  mongoUri : Option String
  parse : List Nat → Except String (List ParsedRecord)
  b64decode : String → Except String (List Nat)
  pingError : Option String
  insertError : Option (Nat × String)
  elapsedMs : Nat

/-- POST /process-pdf input: the upload's filename, the size the framework
reports for it (UploadFile.size is optional), the payload bytes, and the
form date. -/
structure MultipartRequest where
  filename : String
  size : Option Nat
  content : List Nat
  date : String

/-- POST /process-pdf-base64 input (class PDFProcessRequest). -/
structure Base64Request where
  pdf_data : String
  date : String

/-- Detail text of the HTTPException raised at src/main.py line 128 when
MONGODB_URI is unset. -/
def mongoUriMissingMsg : String := "MONGODB_URI environment variable not set"

/-- The MongoDB section, src/main.py lines 121-148 (and 217-244): resolve
MONGODB_URI, open a client, ping, insert the batch, close.  Returns
`some (status, detail)` when the block raises an HTTPException, `none` on
success.  Everything raised inside the inner `try` — the HTTPException for
a missing MONGODB_URI included, since HTTPException is an Exception — is
caught by `except Exception` at line 146 and re-raised as a 500 whose
detail wraps str(e); str of an HTTPException is "{status}: {detail}", so
the missing-URI detail comes out wrapped.  `client.close()` at line 144 is
inside the `try`, after the insert: it is not reached when the ping or the
insert raises. -/
def mongoUpload (env : Env) (records : List StampedRecord) (eff : Effects) :
    Option (Nat × String) × Effects :=
  match env.mongoUri with
  | none =>
    (some (500, "MongoDB upload failed: " ++ "500: " ++ mongoUriMissingMsg), eff)
  | some _ =>
    let eff1 := { eff with connsOpened := eff.connsOpened + 1 }
    match env.pingError with
    | some m => (some (500, "MongoDB upload failed: " ++ m), eff1)
    | none =>
      match records with
      | [] => (none, { eff1 with connsClosed := eff1.connsClosed + 1 })
      | _ :: _ =>
        match env.insertError with
        | none =>
          let eff2 := { eff1 with store := eff1.store ++ records }
          (none, { eff2 with connsClosed := eff2.connsClosed + 1 })
        | some (k, m) =>
          let eff2 := { eff1 with store := eff1.store ++ records.take k }
          (some (500, "MongoDB upload failed: " ++ m), eff2)

/-- The staged block, src/main.py lines 107-159 (and 203-255): parse the
staged artifact, fail when the dataframe is empty, stamp the records with
the date, upload, and build the success response. -/
def stagedBody (env : Env) (date : String) (stagedBytes : List Nat)
    (eff : Effects) : Raw × Effects :=
  match env.parse stagedBytes with
  | .error m => (.exc m, eff)
  | .ok parsed =>
    if parsed.length = 0 then
      (.httpExc 400 "No data could be extracted from the PDF", eff)
    else
      let records := stampRecords parsed date
      let up := mongoUpload env records eff
      match up.1 with
      | some sd => (.httpExc sd.1 sd.2, up.2)
      | none =>
        (.ok { success := true,
               records_count := records.length,
               message := "PDF processed successfully. "
                 ++ toString records.length
                 ++ " records extracted and uploaded to MongoDB.",
               processing_time_ms := (env.elapsedMs : Int) }, up.2)

/-- The staged block together with its `finally` (lines 161-166) and the
boundary handlers (lines 168-172): the temporary artifact is unlinked on
every exit path, an HTTPException is re-raised as is, and any other
exception becomes a 500 whose detail starts "Failed to process PDF: ". -/
def runStaged (env : Env) (date : String) (stagedBytes : List Nat)
    (eff : Effects) : Outcome × Effects :=
  let r := stagedBody env date stagedBytes eff
  let eff2 := unlinkTemp 0 r.2
  match r.1 with
  | .ok resp => (.ok resp, eff2)
  | .httpExc s d => (.httpError s d, eff2)
  | .exc m => (.httpError 500 ("Failed to process PDF: " ++ m), eff2)

/-- 10 * 1024 * 1024, the multipart size bound of src/main.py line 92. -/
def maxUploadSize : Nat := 10 * 1024 * 1024

/-- The message of the TypeError Python raises at line 93 when
`pdf_file.size` is None: comparing None against an int with > is not
supported. -/
def noneSizeCompareMsg : String :=
  "unsupported comparison between instances of NoneType and int"

/-- Whether `pdf_file.filename.lower().endswith(.pdf)` holds (line 88): the
lowercased filename ends in the four characters `.pdf`.  Stated over the
character list; lowering is per character, which agrees with Python on the
ASCII suffix being tested. -/
def validPdfFilename (s : String) : Bool :=
  (s.data.map Char.toLower).reverse.take 4 = ['f', 'd', 'p', '.']

/-- POST /process-pdf, src/main.py lines 68-172.  Checks the filename, then
the reported size (a None size makes the comparison itself raise, which the
boundary turns into a 500), stages the payload in a fresh temporary file
(id 0) and runs the staged block. -/
def process_pdf (env : Env) (req : MultipartRequest) : Outcome × Effects :=
  if validPdfFilename req.filename = false then
    (.httpError 400 "File must be a PDF", Effects.init)
  else
    match req.size with
    | none =>
      (.httpError 500 ("Failed to process PDF: " ++ noneSizeCompareMsg),
        Effects.init)
    | some sz =>
      if maxUploadSize < sz then
        (.httpError 400 "File size must be less than 10MB", Effects.init)
      else
        let eff := { Effects.init with
          tempCreated := [0], fsTemp := [(0, req.content)] }
        runStaged env req.date req.content eff

/-- POST /process-pdf-base64, src/main.py lines 174-268.  Decodes the
payload (a decoder failure becomes a 400), stages the decoded bytes in a
fresh temporary file (id 0) and runs the staged block.  No size check of
any kind happens on this path. -/
def process_pdf_base64 (env : Env) (req : Base64Request) : Outcome × Effects :=
  match env.b64decode req.pdf_data with
  | .error m => (.httpError 400 ("Invalid base64 data: " ++ m), Effects.init)
  | .ok stagedBytes =>
    let eff := { Effects.init with
      tempCreated := [0], fsTemp := [(0, stagedBytes)] }
    runStaged env req.date stagedBytes eff

/-! ### Concrete fixtures used by witnesses and counterexamples -/

/-- Two parsed rows, as the extraction of a small rainfall table yields. -/
def sampleRecords : List ParsedRecord :=
  [[("station", "Alpha"), ("rainfall_mm", "4")],
   [("station", "Beta"), ("rainfall_mm", "7")]]

/-- A run in which every external collaborator succeeds. -/
def okEnv : Env :=
  { mongoUri := some "mongodb+srv at cluster0",
    parse := fun _ => .ok sampleRecords,
    b64decode := fun _ => .ok [37, 80, 68, 70],
    pingError := none,
    insertError := none,
    elapsedMs := 12 }

/-- A well-formed multipart request (payload is the four bytes of a PDF
magic header). -/
def okReq : MultipartRequest :=
  { filename := "rainfall.pdf", size := some 4, content := [37, 80, 68, 70],
    date := "15/01/2024" }

/-- A well-formed base64 request. -/
def okB64Req : Base64Request :=
  { pdf_data := "JVBERg==", date := "15/01/2024" }

/-! ### Helper lemmas about the pipeline -/

theorem unlinkTemp_store (p : Nat) (e : Effects) :
    (unlinkTemp p e).store = e.store := rfl

theorem unlinkTemp_conns (p : Nat) (e : Effects) :
    (unlinkTemp p e).connsOpened = e.connsOpened ∧
    (unlinkTemp p e).connsClosed = e.connsClosed := ⟨rfl, rfl⟩

theorem mongoUpload_preserves_temp (env : Env) (rs : List StampedRecord)
    (eff : Effects) :
    (mongoUpload env rs eff).2.fsTemp = eff.fsTemp ∧
    (mongoUpload env rs eff).2.tempCreated = eff.tempCreated := by
  unfold mongoUpload
  rcases env.mongoUri with _ | u
  · exact ⟨rfl, rfl⟩
  · rcases env.pingError with _ | m
    · rcases rs with _ | ⟨r, rs2⟩
      · exact ⟨rfl, rfl⟩
      · rcases env.insertError with _ | ⟨k, m2⟩
        · exact ⟨rfl, rfl⟩
        · exact ⟨rfl, rfl⟩
    · exact ⟨rfl, rfl⟩

theorem mongoUpload_fst_shape (env : Env) (rs : List StampedRecord)
    (eff : Effects) :
    (mongoUpload env rs eff).1 = none ∨
    ∃ d, (mongoUpload env rs eff).1 = some (500, d) := by
  unfold mongoUpload
  rcases env.mongoUri with _ | u
  · exact .inr ⟨_, rfl⟩
  · rcases env.pingError with _ | m
    · rcases rs with _ | ⟨r, rs2⟩
      · exact .inl rfl
      · rcases env.insertError with _ | ⟨k, m2⟩
        · exact .inl rfl
        · exact .inr ⟨_, rfl⟩
    · exact .inr ⟨_, rfl⟩

theorem stagedBody_preserves_temp (env : Env) (date : String)
    (b : List Nat) (eff : Effects) :
    (stagedBody env date b eff).2.fsTemp = eff.fsTemp ∧
    (stagedBody env date b eff).2.tempCreated = eff.tempCreated := by
  unfold stagedBody
  rcases env.parse b with m | parsed
  · exact ⟨rfl, rfl⟩
  · by_cases hl : parsed.length = 0
    · simp [hl]
    · simp only [hl, if_false, ite_false]
      rcases hM : (mongoUpload env (stampRecords parsed date) eff).1 with _ | sd <;>
        simpa [hM] using mongoUpload_preserves_temp env (stampRecords parsed date) eff

theorem runStaged_fsTemp (env : Env) (date : String) (b : List Nat)
    (eff : Effects) :
    (runStaged env date b eff).2.fsTemp
      = eff.fsTemp.filter (fun q => q.1 ≠ 0) := by
  unfold runStaged
  rcases hr : (stagedBody env date b eff).1 with resp | ⟨s, d⟩ | m <;>
    simp [hr, unlinkTemp, (stagedBody_preserves_temp env date b eff).1]

theorem stampRecords_length (rs : List ParsedRecord) (date : String) :
    (stampRecords rs date).length = rs.length := by
  simp [stampRecords]

theorem stampRecords_date_mem (rs : List ParsedRecord) (date : String) :
    ∀ r ∈ stampRecords rs date, lookupField r "date" = some date := by
  intro r hr
  simp only [stampRecords, List.mem_map] at hr
  obtain ⟨orig, _, h2⟩ := hr
  rw [← h2]
  exact lookupField_setField_self orig "date" date

/-- Every failing exit of the staged block is classified: an unexpected
parser fault, the 400 for an empty extraction, or a 500 from the MongoDB
section — there is no other error shape. -/
theorem stagedBody_fst_shape (env : Env) (date : String) (b : List Nat)
    (eff : Effects) :
    (∃ resp, (stagedBody env date b eff).1 = .ok resp) ∨
    (stagedBody env date b eff).1
      = .httpExc 400 "No data could be extracted from the PDF" ∨
    (∃ d, (stagedBody env date b eff).1 = .httpExc 500 d) ∨
    (∃ m, (stagedBody env date b eff).1 = .exc m) := by
  unfold stagedBody
  rcases hp : env.parse b with m | parsed
  · exact .inr (.inr (.inr ⟨m, by simp⟩))
  · by_cases hl : parsed.length = 0
    · exact .inr (.inl (by simp [hl]))
    · rcases hM : (mongoUpload env (stampRecords parsed date) eff).1 with _ | sd
      · exact .inl (by simp [hl, hM])
      · rcases mongoUpload_fst_shape env (stampRecords parsed date) eff
          with h0 | ⟨d, h5⟩
        · rw [hM] at h0; cases h0
        · rw [hM] at h5
          have hsd : sd = (500, d) := by simpa using h5
          exact .inr (.inr (.inl ⟨d, by simp [hl, hM, hsd]⟩))

/-- The staged pipeline can fail many ways, but never with the multipart
size-gate message: that check lives before staging, on the multipart path
only. -/
theorem runStaged_not_size_error (env : Env) (date : String) (b : List Nat)
    (eff : Effects) :
    (runStaged env date b eff).1
      ≠ .httpError 400 "File size must be less than 10MB" := by
  unfold runStaged
  rcases stagedBody_fst_shape env date b eff with
    ⟨resp, hr⟩ | hr | ⟨d, hr⟩ | ⟨m, hr⟩ <;> simp [hr]

/-- With MONGODB_URI unset the upload raises at once: the client is never
constructed and the effects are untouched. -/
theorem mongoUpload_none (env : Env) (rs : List StampedRecord) (eff : Effects)
    (huri : env.mongoUri = none) :
    mongoUpload env rs eff
      = (some (500, "MongoDB upload failed: " ++ "500: " ++ mongoUriMissingMsg),
         eff) := by
  unfold mongoUpload
  rw [huri]

/-- When the URI is set, the ping succeeds, the insert succeeds and the
batch is non-empty, the upload returns success having opened and closed
one connection and appended the whole batch to the store. -/
theorem mongoUpload_success (env : Env) (rs : List StampedRecord)
    (eff : Effects) (u : String) (huri : env.mongoUri = some u)
    (hping : env.pingError = none) (hins : env.insertError = none)
    (hne : rs ≠ []) :
    mongoUpload env rs eff
      = (none, { eff with connsOpened := eff.connsOpened + 1,
                          connsClosed := eff.connsClosed + 1,
                          store := eff.store ++ rs }) := by
  unfold mongoUpload
  rw [huri, hping, hins]
  rcases rs with _ | ⟨r0, rtl⟩
  · cases hne rfl
  · rfl

/-- A successful upload, whatever the environment, opened and closed one
connection and appended exactly the given batch. -/
theorem mongoUpload_none_inv (env : Env) (rs : List StampedRecord)
    (eff : Effects) (h : (mongoUpload env rs eff).1 = none) :
    (mongoUpload env rs eff).2.store = eff.store ++ rs ∧
    (mongoUpload env rs eff).2.connsOpened = eff.connsOpened + 1 ∧
    (mongoUpload env rs eff).2.connsClosed = eff.connsClosed + 1 ∧
    env.pingError = none := by
  unfold mongoUpload at h ⊢
  rcases huri : env.mongoUri with _ | u <;> rw [huri] at h
  · simp at h
  · rcases hping : env.pingError with _ | m <;> rw [hping] at h
    · rcases rs with _ | ⟨r0, rtl⟩
      · simp
      · rcases hins : env.insertError with _ | ⟨k, m2⟩ <;> rw [hins] at h
        · simp
        · simp at h
    · simp at h

/-- The second component of the staged block when the URI is unset: no
effect at all. -/
theorem stagedBody_none_snd (env : Env) (date : String) (b : List Nat)
    (eff : Effects) (huri : env.mongoUri = none) :
    (stagedBody env date b eff).2 = eff := by
  unfold stagedBody
  rcases hp : env.parse b with m | parsed
  · rfl
  · by_cases hl : parsed.length = 0
    · simp [hl]
    · simp [hl, mongoUpload_none env _ eff huri]

/-- The first component of the staged block when the URI is unset and the
extraction yields a non-empty batch: the wrapped ConfigurationError. -/
theorem stagedBody_none_fst (env : Env) (date : String) (b : List Nat)
    (eff : Effects) (parsed : List ParsedRecord) (huri : env.mongoUri = none)
    (hp : env.parse b = .ok parsed) (hl : parsed.length ≠ 0) :
    (stagedBody env date b eff).1
      = .httpExc 500 ("MongoDB upload failed: " ++ "500: " ++ mongoUriMissingMsg) := by
  unfold stagedBody
  rw [hp]
  simp [hl, mongoUpload_none env _ eff huri]

/-- The staged block on the full success path. -/
theorem stagedBody_success (env : Env) (date : String) (b : List Nat)
    (eff : Effects) (parsed : List ParsedRecord) (u : String)
    (hp : env.parse b = .ok parsed) (hl : parsed.length ≠ 0)
    (huri : env.mongoUri = some u) (hping : env.pingError = none)
    (hins : env.insertError = none) :
    stagedBody env date b eff
      = (.ok { success := true, records_count := parsed.length,
               message := "PDF processed successfully. " ++ toString parsed.length
                 ++ " records extracted and uploaded to MongoDB.",
               processing_time_ms := (env.elapsedMs : Int) },
         { eff with connsOpened := eff.connsOpened + 1,
                    connsClosed := eff.connsClosed + 1,
                    store := eff.store ++ stampRecords parsed date }) := by
  have hne : stampRecords parsed date ≠ [] := by
    intro hnil
    exact hl (by simpa [hnil] using (stampRecords_length parsed date).symm)
  unfold stagedBody
  rw [hp]
  simp [hl, mongoUpload_success env (stampRecords parsed date) eff u huri
    hping hins hne, stampRecords_length]

/-- The final effects of a request are the staged block's effects with the
temporary artifact unlinked, on every path. -/
theorem runStaged_snd (env : Env) (date : String) (b : List Nat)
    (eff : Effects) :
    (runStaged env date b eff).2 = unlinkTemp 0 (stagedBody env date b eff).2 := by
  unfold runStaged
  rcases hr : (stagedBody env date b eff).1 with r0 | ⟨s, d⟩ | m <;> simp [hr]

/-- An HTTPException escaping the staged block is re-raised as is. -/
theorem runStaged_fst_of_httpExc (env : Env) (date : String) (b : List Nat)
    (eff : Effects) (s : Nat) (d : String)
    (h : (stagedBody env date b eff).1 = .httpExc s d) :
    (runStaged env date b eff).1 = .httpError s d := by
  unfold runStaged
  simp [h]

/-- A gate-passing multipart request reduces to the staged pipeline run on
its payload, with one fresh temporary artifact staged. -/
theorem process_pdf_staged (env : Env) (req : MultipartRequest) (sz : Nat)
    (hfn : validPdfFilename req.filename = true) (hsz : req.size = some sz)
    (hbig : ¬ maxUploadSize < sz) :
    process_pdf env req
      = runStaged env req.date req.content
          { Effects.init with tempCreated := [0], fsTemp := [(0, req.content)] } := by
  unfold process_pdf
  rw [hfn, hsz]
  simp [hbig]

/-- A base64 request whose payload decodes reduces to the staged pipeline
run on the decoded bytes. -/
theorem process_b64_staged (env : Env) (req : Base64Request) (bytes : List Nat)
    (hdec : env.b64decode req.pdf_data = .ok bytes) :
    process_pdf_base64 env req
      = runStaged env req.date bytes
          { Effects.init with tempCreated := [0], fsTemp := [(0, bytes)] } := by
  unfold process_pdf_base64
  rw [hdec]

/-- A multipart request that returned 200 passed the filename and size
gates. -/
theorem process_pdf_ok_cases (env : Env) (req : MultipartRequest)
    (resp : PDFProcessResponse) (h : (process_pdf env req).1 = .ok resp) :
    validPdfFilename req.filename = true ∧
    ∃ sz, req.size = some sz ∧ ¬ maxUploadSize < sz := by
  unfold process_pdf at h
  cases hfn : validPdfFilename req.filename <;> rw [hfn] at h
  · simp at h
  · rcases hsz : req.size with _ | sz <;> rw [hsz] at h
    · simp at h
    · by_cases hbig : maxUploadSize < sz
      · simp [hbig] at h
      · exact ⟨rfl, sz, rfl, hbig⟩

/-- A base64 request that returned 200 decoded successfully. -/
theorem process_b64_ok_cases (env : Env) (req : Base64Request)
    (resp : PDFProcessResponse)
    (h : (process_pdf_base64 env req).1 = .ok resp) :
    ∃ bytes, env.b64decode req.pdf_data = .ok bytes := by
  unfold process_pdf_base64 at h
  rcases hdec : env.b64decode req.pdf_data with m | bytes <;> rw [hdec] at h
  · simp at h
  · exact ⟨bytes, rfl⟩

/-- Inversion of a successful staged run: the parse yielded a non-empty
batch, the upload succeeded, the response reports the batch size, and the
store gained exactly the stamped batch with one connection opened and
closed. -/
theorem runStaged_ok_inv (env : Env) (date : String) (b : List Nat)
    (eff : Effects) (resp : PDFProcessResponse)
    (h : (runStaged env date b eff).1 = .ok resp) :
    ∃ parsed, env.parse b = .ok parsed ∧ parsed.length ≠ 0 ∧
      resp.success = true ∧
      resp.records_count = parsed.length ∧
      (runStaged env date b eff).2.store = eff.store ++ stampRecords parsed date ∧
      (runStaged env date b eff).2.connsOpened = eff.connsOpened + 1 ∧
      (runStaged env date b eff).2.connsClosed = eff.connsClosed + 1 := by
  have hsnd := runStaged_snd env date b eff
  simp only [runStaged] at h
  rcases hr : (stagedBody env date b eff).1 with r0 | ⟨s, d⟩ | m <;> rw [hr] at h
  · -- h : (Outcome.ok r0, _).1 = .ok resp
    have hr0 : r0 = resp := by simpa using h
    subst hr0
    -- invert the staged block
    unfold stagedBody at hr
    rcases hp : env.parse b with m | parsed <;> rw [hp] at hr
    · simp at hr
    · by_cases hl : parsed.length = 0
      · simp [hl] at hr
      · simp only [hl, if_false, ite_false] at hr
        rcases hM : (mongoUpload env (stampRecords parsed date) eff).1 with _ | sd <;>
          rw [hM] at hr
        · have hup := mongoUpload_none_inv env (stampRecords parsed date) eff hM
          have hbody : (stagedBody env date b eff).2
              = (mongoUpload env (stampRecords parsed date) eff).2 := by
            unfold stagedBody
            rw [hp]
            simp [hl, hM]
          have hro : r0 = { success := true,
                            records_count := (stampRecords parsed date).length,
                            message := "PDF processed successfully. "
                              ++ toString (stampRecords parsed date).length
                              ++ " records extracted and uploaded to MongoDB.",
                            processing_time_ms := (env.elapsedMs : Int) } := by
            simpa using hr.symm
          refine ⟨parsed, rfl, hl, ?_, ?_, ?_, ?_, ?_⟩
          · rw [hro]
          · rw [hro]; simp [stampRecords_length]
          · rw [hsnd, unlinkTemp_store, hbody, hup.1]
          · rw [hsnd, (unlinkTemp_conns 0 _).1, hbody, hup.2.1]
          · rw [hsnd, (unlinkTemp_conns 0 _).2, hbody, hup.2.2.1]
        · simp at hr
  · simp at h
  · simp at h

/-! ### C7 — record stamping is total and deterministic -/

/-- C7: the stamping transform yields exactly as many StampedRecords as
input ParsedRecords, each output carries the supplied date string verbatim
in its `date` field (a pre-existing `date` field is overwritten), and every
other field is unchanged. -/
theorem stamping_total_preserves_fields (rs : List ParsedRecord)
    (date : String) :
    (stampRecords rs date).length = rs.length ∧
    List.Forall₂ (fun r s =>
        lookupField s "date" = some date ∧
        ∀ k, k ≠ "date" → lookupField s k = lookupField r k)
      rs (stampRecords rs date) := by
  refine ⟨stampRecords_length rs date, ?_⟩
  induction rs with
  | nil => exact .nil
  | cons r rest ih =>
    exact List.Forall₂.cons
      ⟨lookupField_setField_self r "date" date,
       fun k hk => lookupField_setField_ne r "date" date k hk⟩ ih

/-- C7 at a concrete input: two records, one of which already has a date
field, stamped with 15/01/2024. -/
theorem stamping_total_preserves_fields_witness :
    (stampRecords [[("station", "Alpha"), ("date", "old")],
                   [("station", "Beta")]] "15/01/2024").length
      = [[("station", "Alpha"), ("date", "old")], [("station", "Beta")]].length ∧
    List.Forall₂ (fun r s =>
        lookupField s "date" = some "15/01/2024" ∧
        ∀ k, k ≠ "date" → lookupField s k = lookupField r k)
      [[("station", "Alpha"), ("date", "old")], [("station", "Beta")]]
      (stampRecords [[("station", "Alpha"), ("date", "old")],
                     [("station", "Beta")]] "15/01/2024") :=
  stamping_total_preserves_fields
    [[("station", "Alpha"), ("date", "old")], [("station", "Beta")]]
    "15/01/2024"

/-! ### C8 — temporary artifacts are gone when the request completes -/

/-- C8: on every exit path of either endpoint — success, any domain error,
or an unexpected fault — no temporary artifact is left in storage when the
request completes. -/
theorem temp_artifacts_absent_after_request :
    (∀ (env : Env) (req : MultipartRequest),
      (process_pdf env req).2.fsTemp = []) ∧
    (∀ (env : Env) (req : Base64Request),
      (process_pdf_base64 env req).2.fsTemp = []) := by
  constructor
  · intro env req
    unfold process_pdf
    cases hfn : validPdfFilename req.filename
    · simp [Effects.init]
    · rcases hsz : req.size with _ | sz
      · simp [Effects.init]
      · by_cases hbig : maxUploadSize < sz
        · simp [hbig, Effects.init]
        · simp [hbig, runStaged_fsTemp]
  · intro env req
    unfold process_pdf_base64
    rcases hdec : env.b64decode req.pdf_data with m | bytes
    · simp [Effects.init]
    · simp [runStaged_fsTemp]

/-- C8 at a concrete input: a fully successful multipart run and a
base64 run whose parser faults both end with no temporary artifact. -/
theorem temp_artifacts_absent_witness :
    (process_pdf okEnv okReq).2.fsTemp = [] ∧
    (process_pdf_base64
      { okEnv with parse := fun _ => .error "parser crash" }
      okB64Req).2.fsTemp = [] :=
  ⟨temp_artifacts_absent_after_request.1 okEnv okReq,
   temp_artifacts_absent_after_request.2
     { okEnv with parse := fun _ => .error "parser crash" } okB64Req⟩

/-! ### C5 — a bad filename is rejected before staging -/

/-- C5: a multipart request whose filename does not end in .pdf
(case-insensitively) fails with the 400 InvalidInput error, and at that
failure no temporary artifact was ever created. -/
theorem invalid_filename_rejected_before_staging (env : Env)
    (req : MultipartRequest) (h : validPdfFilename req.filename = false) :
    (process_pdf env req).1 = .httpError 400 "File must be a PDF" ∧
    (process_pdf env req).2.tempCreated = [] := by
  unfold process_pdf
  rw [h]
  exact ⟨rfl, rfl⟩

/-- A multipart request carrying a .txt filename. -/
def badNameReq : MultipartRequest :=
  { filename := "rainfall.txt", size := some 4, content := [37, 80, 68, 70],
    date := "15/01/2024" }

/-- C5 at a concrete input. -/
theorem invalid_filename_rejected_witness :
    (process_pdf okEnv badNameReq).1 = .httpError 400 "File must be a PDF" ∧
    (process_pdf okEnv badNameReq).2.tempCreated = [] :=
  invalid_filename_rejected_before_staging okEnv badNameReq (by decide)

/-! ### C10 — a missing size makes the comparison itself fault -/

/-- C10: when the upload reports no size, the comparison at line 93 raises
a TypeError, so the request falls through to the generic 500 InternalError
(detail starting with the Failed-to-process prefix), not to any 400
validation error. -/
theorem none_size_falls_to_internal_error (env : Env)
    (req : MultipartRequest) (hfn : validPdfFilename req.filename = true)
    (hsz : req.size = none) :
    (process_pdf env req).1
      = .httpError 500 ("Failed to process PDF: " ++ noneSizeCompareMsg) ∧
    ∀ d, (process_pdf env req).1 ≠ .httpError 400 d := by
  unfold process_pdf
  rw [hfn, hsz]
  refine ⟨by simp, ?_⟩
  intro d hd
  simp at hd

/-- A multipart request whose framework-reported size is absent. -/
def noneSizeReq : MultipartRequest :=
  { filename := "rainfall.pdf", size := none, content := [37, 80, 68, 70],
    date := "15/01/2024" }

/-- C10 at a concrete input. -/
theorem none_size_internal_error_witness :
    (process_pdf okEnv noneSizeReq).1
      = .httpError 500 ("Failed to process PDF: " ++ noneSizeCompareMsg) ∧
    ∀ d, (process_pdf okEnv noneSizeReq).1 ≠ .httpError 400 d :=
  none_size_falls_to_internal_error okEnv noneSizeReq (by decide) rfl

/-! ### C4 — 10 MiB gate on multipart only -/

/-- C4: a multipart request whose payload exceeds 10 MiB (with the upload
reporting that byte length) fails PayloadTooLarge with no side effect at
all, while the base64 endpoint checks no size bound: a successfully
decoded payload of any length never fails with the size-gate error. -/
theorem multipart_size_gate_base64_unbounded :
    (∀ (env : Env) (req : MultipartRequest),
      validPdfFilename req.filename = true →
      req.size = some req.content.length →
      maxUploadSize < req.content.length →
      process_pdf env req
        = (.httpError 400 "File size must be less than 10MB", Effects.init)) ∧
    (∀ (env : Env) (req : Base64Request) (bytes : List Nat),
      env.b64decode req.pdf_data = .ok bytes →
      maxUploadSize < bytes.length →
      (process_pdf_base64 env req).1
        ≠ .httpError 400 "File size must be less than 10MB") := by
  constructor
  · intro env req hfn hsz hbig
    unfold process_pdf
    rw [hfn, hsz]
    simp [hbig]
  · intro env req bytes hdec _
    unfold process_pdf_base64
    rw [hdec]
    exact runStaged_not_size_error env req.date bytes _

/-- An oversize multipart request: the 10 MiB bound plus one byte,
reported as such, and a base64 run decoding to the same length. -/
def oversizeReq : MultipartRequest :=
  { filename := "rainfall.pdf", size := some (10 * 1024 * 1024 + 1),
    content := List.replicate (10 * 1024 * 1024 + 1) 0,
    date := "15/01/2024" }

/-- An environment whose decoder yields an oversize payload. -/
def oversizeB64Env : Env :=
  { okEnv with
    b64decode := fun _ => .ok (List.replicate (10 * 1024 * 1024 + 1) 0) }

/-- C4 at concrete inputs: the oversize multipart request fails the size
gate; the base64 request decoding to the same byte length does not. -/
theorem multipart_size_gate_witness :
    process_pdf okEnv oversizeReq
      = (.httpError 400 "File size must be less than 10MB", Effects.init) ∧
    (process_pdf_base64 oversizeB64Env okB64Req).1
      ≠ .httpError 400 "File size must be less than 10MB" :=
  ⟨multipart_size_gate_base64_unbounded.1 okEnv oversizeReq (by decide)
      (by rw [show oversizeReq.content
              = List.replicate (10 * 1024 * 1024 + 1) (0 : Nat) from rfl,
            List.length_replicate]
          rfl)
      (by rw [show oversizeReq.content
              = List.replicate (10 * 1024 * 1024 + 1) (0 : Nat) from rfl,
            List.length_replicate]
          show (10 * 1024 * 1024 : Nat) < 10 * 1024 * 1024 + 1
          omega),
   multipart_size_gate_base64_unbounded.2 oversizeB64Env okB64Req
      (List.replicate (10 * 1024 * 1024 + 1) 0) rfl
      (by rw [List.length_replicate]
          show (10 * 1024 * 1024 : Nat) < 10 * 1024 * 1024 + 1
          omega)⟩

/-- A successful staged block makes the endpoint return its response. -/
theorem runStaged_fst_of_ok (env : Env) (date : String) (b : List Nat)
    (eff : Effects) (r0 : PDFProcessResponse)
    (h : (stagedBody env date b eff).1 = .ok r0) :
    (runStaged env date b eff).1 = .ok r0 := by
  unfold runStaged
  simp [h]

/-- An empty extraction short-circuits the staged block with the
NoDataExtracted error, leaving the effects untouched. -/
theorem stagedBody_empty (env : Env) (date : String) (b : List Nat)
    (eff : Effects) (hp : env.parse b = .ok []) :
    stagedBody env date b eff
      = (.httpExc 400 "No data could be extracted from the PDF", eff) := by
  unfold stagedBody
  rw [hp]
  simp

/-- Exhaustive shape of a multipart request: one of the three pre-staging
failures, or a gate-passing request that runs the staged pipeline. -/
theorem process_pdf_shape (env : Env) (req : MultipartRequest) :
    process_pdf env req = (.httpError 400 "File must be a PDF", Effects.init) ∨
    process_pdf env req
      = (.httpError 500 ("Failed to process PDF: " ++ noneSizeCompareMsg),
         Effects.init) ∨
    process_pdf env req
      = (.httpError 400 "File size must be less than 10MB", Effects.init) ∨
    ∃ sz, req.size = some sz ∧ ¬ maxUploadSize < sz ∧
      validPdfFilename req.filename = true ∧
      process_pdf env req
        = runStaged env req.date req.content
            { Effects.init with tempCreated := [0], fsTemp := [(0, req.content)] } := by
  unfold process_pdf
  cases hfn : validPdfFilename req.filename
  · exact .inl rfl
  · rcases hsz : req.size with _ | sz
    · exact .inr (.inl rfl)
    · by_cases hbig : maxUploadSize < sz
      · exact .inr (.inr (.inl (by simp [hbig])))
      · exact .inr (.inr (.inr ⟨sz, rfl, hbig, rfl, by simp [hbig]⟩))

/-- Exhaustive shape of a base64 request: a decode failure, or a staged
pipeline run on the decoded bytes. -/
theorem process_b64_shape (env : Env) (req : Base64Request) :
    (∃ m, process_pdf_base64 env req
      = (.httpError 400 ("Invalid base64 data: " ++ m), Effects.init)) ∨
    ∃ bytes, env.b64decode req.pdf_data = .ok bytes ∧
      process_pdf_base64 env req
        = runStaged env req.date bytes
            { Effects.init with tempCreated := [0], fsTemp := [(0, bytes)] } := by
  unfold process_pdf_base64
  rcases hdec : env.b64decode req.pdf_data with m | bytes
  · exact .inl ⟨m, rfl⟩
  · exact .inr ⟨bytes, rfl, rfl⟩

/-! ### C1 — missing MONGODB_URI -/

/-- C1: with MONGODB_URI unset, neither endpoint ever opens a connection
or inserts a document, and a request that reaches the persistence step
(validation and extraction succeeded) fails with the 500 whose detail
carries the missing-variable message — wrapped by the except-Exception
block of the MongoDB section, which catches the inner HTTPException and
re-raises it as "MongoDB upload failed: str(e)". -/
theorem config_missing_fails_without_persistence :
    (∀ (env : Env) (req : MultipartRequest), env.mongoUri = none →
      (process_pdf env req).2.connsOpened = 0 ∧
      (process_pdf env req).2.store = []) ∧
    (∀ (env : Env) (req : Base64Request), env.mongoUri = none →
      (process_pdf_base64 env req).2.connsOpened = 0 ∧
      (process_pdf_base64 env req).2.store = []) ∧
    (∀ (env : Env) (req : MultipartRequest) (sz : Nat)
        (parsed : List ParsedRecord), env.mongoUri = none →
      validPdfFilename req.filename = true → req.size = some sz →
      ¬ maxUploadSize < sz → env.parse req.content = .ok parsed →
      parsed.length ≠ 0 →
      (process_pdf env req).1 = .httpError 500
        ("MongoDB upload failed: " ++ "500: " ++ mongoUriMissingMsg)) ∧
    (∀ (env : Env) (req : Base64Request) (bytes : List Nat)
        (parsed : List ParsedRecord), env.mongoUri = none →
      env.b64decode req.pdf_data = .ok bytes → env.parse bytes = .ok parsed →
      parsed.length ≠ 0 →
      (process_pdf_base64 env req).1 = .httpError 500
        ("MongoDB upload failed: " ++ "500: " ++ mongoUriMissingMsg)) := by
  refine ⟨?_, ?_, ?_, ?_⟩
  · intro env req huri
    rcases process_pdf_shape env req with h | h | h | ⟨sz, _, _, _, h⟩ <;> rw [h]
    · exact ⟨rfl, rfl⟩
    · exact ⟨rfl, rfl⟩
    · exact ⟨rfl, rfl⟩
    · rw [runStaged_snd, stagedBody_none_snd env req.date req.content _ huri]
      exact ⟨rfl, rfl⟩
  · intro env req huri
    rcases process_b64_shape env req with ⟨m, h⟩ | ⟨bytes, _, h⟩ <;> rw [h]
    · exact ⟨rfl, rfl⟩
    · rw [runStaged_snd, stagedBody_none_snd env req.date bytes _ huri]
      exact ⟨rfl, rfl⟩
  · intro env req sz parsed huri hfn hsz hbig hp hl
    rw [process_pdf_staged env req sz hfn hsz hbig]
    exact runStaged_fst_of_httpExc env req.date req.content _ _ _
      (stagedBody_none_fst env req.date req.content _ parsed huri hp hl)
  · intro env req bytes parsed huri hdec hp hl
    rw [process_b64_staged env req bytes hdec]
    exact runStaged_fst_of_httpExc env req.date bytes _ _ _
      (stagedBody_none_fst env req.date bytes _ parsed huri hp hl)

/-- The fully-working environment with the connection string removed. -/
def noUriEnv : Env := { okEnv with mongoUri := none }

/-- C1 at a concrete input: with the URI removed, a well-formed multipart
request opens no connection, inserts nothing, and fails with the wrapped
missing-variable message. -/
theorem config_missing_witness :
    ((process_pdf noUriEnv okReq).2.connsOpened = 0 ∧
     (process_pdf noUriEnv okReq).2.store = []) ∧
    (process_pdf noUriEnv okReq).1 = .httpError 500
      ("MongoDB upload failed: " ++ "500: " ++ mongoUriMissingMsg) :=
  ⟨config_missing_fails_without_persistence.1 noUriEnv okReq rfl,
   config_missing_fails_without_persistence.2.2.1 noUriEnv okReq 4
     sampleRecords rfl (by decide) rfl (by decide) rfl (by decide)⟩

/-! ### C6 — empty extraction -/

/-- C6: when extraction yields zero records, either endpoint fails with
the 400 NoDataExtracted error and the store gains no document. -/
theorem empty_extraction_fails_no_insert :
    (∀ (env : Env) (req : MultipartRequest) (sz : Nat),
      validPdfFilename req.filename = true → req.size = some sz →
      ¬ maxUploadSize < sz → env.parse req.content = .ok [] →
      (process_pdf env req).1
        = .httpError 400 "No data could be extracted from the PDF" ∧
      (process_pdf env req).2.store = []) ∧
    (∀ (env : Env) (req : Base64Request) (bytes : List Nat),
      env.b64decode req.pdf_data = .ok bytes → env.parse bytes = .ok [] →
      (process_pdf_base64 env req).1
        = .httpError 400 "No data could be extracted from the PDF" ∧
      (process_pdf_base64 env req).2.store = []) := by
  constructor
  · intro env req sz hfn hsz hbig hp
    rw [process_pdf_staged env req sz hfn hsz hbig]
    have hsb := stagedBody_empty env req.date req.content
      { Effects.init with tempCreated := [0], fsTemp := [(0, req.content)] } hp
    constructor
    · exact runStaged_fst_of_httpExc env req.date req.content _ _ _ (by rw [hsb])
    · rw [runStaged_snd, unlinkTemp_store, hsb]
      rfl
  · intro env req bytes hdec hp
    rw [process_b64_staged env req bytes hdec]
    have hsb := stagedBody_empty env req.date bytes
      { Effects.init with tempCreated := [0], fsTemp := [(0, bytes)] } hp
    constructor
    · exact runStaged_fst_of_httpExc env req.date bytes _ _ _ (by rw [hsb])
    · rw [runStaged_snd, unlinkTemp_store, hsb]
      rfl

/-- The fully-working environment with a parser that extracts nothing. -/
def emptyParseEnv : Env := { okEnv with parse := fun _ => .ok [] }

/-- C6 at a concrete input. -/
theorem empty_extraction_witness :
    (process_pdf emptyParseEnv okReq).1
      = .httpError 400 "No data could be extracted from the PDF" ∧
    (process_pdf emptyParseEnv okReq).2.store = [] :=
  empty_extraction_fails_no_insert.1 emptyParseEnv okReq 4 (by decide) rfl
    (by decide) rfl

/-! ### C2 — all-or-nothing persistence (corrected) -/

/-- The fully-working environment whose insert fails after writing the
first document of the batch (an ordered insert_many failing mid-batch). -/
def partialFailEnv : Env := { okEnv with insertError := some (1, "write error") }

/-- C2 counterexample: with two extracted records and an insert that
fails after the first, the request reports failure while the store has
gained one of the two records — a reachable outcome that both reports
failure and leaves some but not all records persisted. -/
theorem partial_batch_failure_cex :
    (process_pdf partialFailEnv okReq).1
      = .httpError 500 "MongoDB upload failed: write error" ∧
    (process_pdf partialFailEnv okReq).2.store.length = 1 ∧
    sampleRecords.length = 2 := by decide

/-- C2 amended: a request that reports success persisted exactly the
entire stamped batch (no success with partial persistence); a failing
request, however, may leave a proper prefix of the batch persisted. -/
theorem success_persists_entire_batch :
    (∀ (env : Env) (req : MultipartRequest) (resp : PDFProcessResponse),
      (process_pdf env req).1 = .ok resp →
      ∃ parsed, env.parse req.content = .ok parsed ∧
        (process_pdf env req).2.store = stampRecords parsed req.date ∧
        resp.records_count = parsed.length) ∧
    (∀ (env : Env) (req : Base64Request) (resp : PDFProcessResponse),
      (process_pdf_base64 env req).1 = .ok resp →
      ∃ bytes parsed, env.b64decode req.pdf_data = .ok bytes ∧
        env.parse bytes = .ok parsed ∧
        (process_pdf_base64 env req).2.store = stampRecords parsed req.date ∧
        resp.records_count = parsed.length) := by
  constructor
  · intro env req resp h
    obtain ⟨hfn, sz, hsz, hbig⟩ := process_pdf_ok_cases env req resp h
    rw [process_pdf_staged env req sz hfn hsz hbig] at h ⊢
    obtain ⟨parsed, hp, hl, _, hcnt, hstore, _, _⟩ :=
      runStaged_ok_inv _ _ _ _ _ h
    refine ⟨parsed, hp, ?_, hcnt⟩
    rw [hstore]
    rfl
  · intro env req resp h
    obtain ⟨bytes, hdec⟩ := process_b64_ok_cases env req resp h
    rw [process_b64_staged env req bytes hdec] at h ⊢
    obtain ⟨parsed, hp, hl, _, hcnt, hstore, _, _⟩ :=
      runStaged_ok_inv _ _ _ _ _ h
    refine ⟨bytes, parsed, hdec, hp, ?_, hcnt⟩
    rw [hstore]
    rfl

/-- The response of the fully successful concrete run. -/
def okResp : PDFProcessResponse :=
  { success := true, records_count := 2,
    message := "PDF processed successfully. 2 records extracted and uploaded to MongoDB.",
    processing_time_ms := 12 }

/-- C2 amended at a concrete input. -/
theorem success_persists_entire_batch_witness :
    ∃ parsed, okEnv.parse okReq.content = .ok parsed ∧
      (process_pdf okEnv okReq).2.store = stampRecords parsed okReq.date ∧
      okResp.records_count = parsed.length :=
  success_persists_entire_batch.1 okEnv okReq okResp (by decide)

/-! ### C3 — connection closing (corrected) -/

/-- The fully-working environment whose MongoDB ping fails. -/
def pingFailEnv : Env := { okEnv with pingError := some "connection refused" }

/-- C3 counterexample: when the ping raises, the except block re-raises
an HTTPException without ever reaching client.close(), so the request
ends with one connection opened and none closed. -/
theorem connection_left_open_cex :
    (process_pdf pingFailEnv okReq).2.connsOpened = 1 ∧
    (process_pdf pingFailEnv okReq).2.connsClosed = 0 ∧
    (process_pdf pingFailEnv okReq).1
      = .httpError 500 "MongoDB upload failed: connection refused" := by decide

/-- C3 amended: on the success path the one connection opened is also
closed; after a ping or insert failure the connection is left unclosed
(close is only reached at the end of the try block). -/
theorem success_closes_connection :
    (∀ (env : Env) (req : MultipartRequest) (resp : PDFProcessResponse),
      (process_pdf env req).1 = .ok resp →
      (process_pdf env req).2.connsOpened = 1 ∧
      (process_pdf env req).2.connsClosed = 1) ∧
    (∀ (env : Env) (req : Base64Request) (resp : PDFProcessResponse),
      (process_pdf_base64 env req).1 = .ok resp →
      (process_pdf_base64 env req).2.connsOpened = 1 ∧
      (process_pdf_base64 env req).2.connsClosed = 1) := by
  constructor
  · intro env req resp h
    obtain ⟨hfn, sz, hsz, hbig⟩ := process_pdf_ok_cases env req resp h
    rw [process_pdf_staged env req sz hfn hsz hbig] at h ⊢
    obtain ⟨parsed, _, _, _, _, _, hop, hcl⟩ := runStaged_ok_inv _ _ _ _ _ h
    exact ⟨by rw [hop]; rfl, by rw [hcl]; rfl⟩
  · intro env req resp h
    obtain ⟨bytes, hdec⟩ := process_b64_ok_cases env req resp h
    rw [process_b64_staged env req bytes hdec] at h ⊢
    obtain ⟨parsed, _, _, _, _, _, hop, hcl⟩ := runStaged_ok_inv _ _ _ _ _ h
    exact ⟨by rw [hop]; rfl, by rw [hcl]; rfl⟩

/-- C3 amended at a concrete input. -/
theorem success_closes_connection_witness :
    (process_pdf okEnv okReq).2.connsOpened = 1 ∧
    (process_pdf okEnv okReq).2.connsClosed = 1 :=
  success_closes_connection.1 okEnv okReq okResp (by decide)

/-! ### C9 — shape of a fully successful run -/

/-- C9: when extraction yields a non-empty batch and persistence succeeds,
the response is success with records_count equal to the batch size, a
message containing "N records", a non-negative processing time, and the
store gains exactly the stamped batch, every document carrying the
supplied date. -/
theorem success_response_and_store_shape :
    (∀ (env : Env) (req : MultipartRequest) (sz : Nat)
        (parsed : List ParsedRecord) (u : String),
      validPdfFilename req.filename = true → req.size = some sz →
      ¬ maxUploadSize < sz → env.parse req.content = .ok parsed →
      parsed.length ≠ 0 → env.mongoUri = some u → env.pingError = none →
      env.insertError = none →
      (process_pdf env req).1 = .ok
        { success := true, records_count := parsed.length,
          message := "PDF processed successfully. " ++ toString parsed.length
            ++ " records extracted and uploaded to MongoDB.",
          processing_time_ms := (env.elapsedMs : Int) } ∧
      (∃ pre post,
        "PDF processed successfully. " ++ toString parsed.length
            ++ " records extracted and uploaded to MongoDB."
          = pre ++ (toString parsed.length ++ " records") ++ post) ∧
      0 ≤ (env.elapsedMs : Int) ∧
      (process_pdf env req).2.store = stampRecords parsed req.date ∧
      (process_pdf env req).2.store.length = parsed.length ∧
      (∀ r ∈ (process_pdf env req).2.store,
        lookupField r "date" = some req.date)) ∧
    (∀ (env : Env) (req : Base64Request) (bytes : List Nat)
        (parsed : List ParsedRecord) (u : String),
      env.b64decode req.pdf_data = .ok bytes → env.parse bytes = .ok parsed →
      parsed.length ≠ 0 → env.mongoUri = some u → env.pingError = none →
      env.insertError = none →
      (process_pdf_base64 env req).1 = .ok
        { success := true, records_count := parsed.length,
          message := "PDF processed successfully. " ++ toString parsed.length
            ++ " records extracted and uploaded to MongoDB.",
          processing_time_ms := (env.elapsedMs : Int) } ∧
      (process_pdf_base64 env req).2.store = stampRecords parsed req.date ∧
      (process_pdf_base64 env req).2.store.length = parsed.length ∧
      (∀ r ∈ (process_pdf_base64 env req).2.store,
        lookupField r "date" = some req.date)) := by
  constructor
  · intro env req sz parsed u hfn hsz hbig hp hl huri hping hins
    rw [process_pdf_staged env req sz hfn hsz hbig]
    have hsb := stagedBody_success env req.date req.content
      { Effects.init with tempCreated := [0], fsTemp := [(0, req.content)] }
      parsed u hp hl huri hping hins
    have hstore : (runStaged env req.date req.content
        { Effects.init with tempCreated := [0], fsTemp := [(0, req.content)] }).2.store
        = stampRecords parsed req.date := by
      rw [runStaged_snd, unlinkTemp_store, hsb]
      rfl
    refine ⟨runStaged_fst_of_ok env req.date req.content _ _ (by rw [hsb]),
            ?_, by omega, hstore, by rw [hstore, stampRecords_length], ?_⟩
    · refine ⟨"PDF processed successfully. ",
              " extracted and uploaded to MongoDB.", ?_⟩
      have hsplit : (" records extracted and uploaded to MongoDB." : String)
          = " records" ++ " extracted and uploaded to MongoDB." := by decide
      rw [hsplit]
      simp [String.append_assoc]
    · intro r hr
      rw [hstore] at hr
      exact stampRecords_date_mem parsed req.date r hr
  · intro env req bytes parsed u hdec hp hl huri hping hins
    rw [process_b64_staged env req bytes hdec]
    have hsb := stagedBody_success env req.date bytes
      { Effects.init with tempCreated := [0], fsTemp := [(0, bytes)] }
      parsed u hp hl huri hping hins
    have hstore : (runStaged env req.date bytes
        { Effects.init with tempCreated := [0], fsTemp := [(0, bytes)] }).2.store
        = stampRecords parsed req.date := by
      rw [runStaged_snd, unlinkTemp_store, hsb]
      rfl
    refine ⟨runStaged_fst_of_ok env req.date bytes _ _ (by rw [hsb]),
            hstore, by rw [hstore, stampRecords_length], ?_⟩
    intro r hr
    rw [hstore] at hr
    exact stampRecords_date_mem parsed req.date r hr

/-- C9 at the concrete scenario of the spec: a multipart upload whose
extraction yields 2 rows, date 15/01/2024. -/
theorem success_response_witness :
    (process_pdf okEnv okReq).1 = .ok
      { success := true, records_count := sampleRecords.length,
        message := "PDF processed successfully. "
          ++ toString sampleRecords.length
          ++ " records extracted and uploaded to MongoDB.",
        processing_time_ms := (okEnv.elapsedMs : Int) } ∧
    (process_pdf okEnv okReq).2.store
      = stampRecords sampleRecords okReq.date :=
  ⟨(success_response_and_store_shape.1 okEnv okReq 4 sampleRecords
      "mongodb+srv at cluster0" (by decide) rfl (by decide) rfl (by decide)
      rfl rfl rfl).1,
   (success_response_and_store_shape.1 okEnv okReq 4 sampleRecords
      "mongodb+srv at cluster0" (by decide) rfl (by decide) rfl (by decide)
      rfl rfl rfl).2.2.2.1⟩

end Rainfall
